import Mathlib

/-!
Shallow embedding of the pose-combat game core (gesture classifier and
combat simulator) of this repository.

Source conventions followed here:
* Normalized landmark coordinates, times (milliseconds, `Date.now()`) and
  pixel positions are modelled as rationals (`ℚ`): the source performs only
  field arithmetic, comparisons and `Math.min`/`Math.max` on them.
* The source helper `getDist` returns `Math.sqrt` of a sum of squares and is
  only ever *compared against a nonnegative threshold* (shield radius, sword
  activation distance, punch speed, extension ratio).  Since `Real.sqrt` is
  strictly monotone on nonnegatives, `sqrt d < t ↔ d < t²` for `t ≥ 0`; the
  embedding therefore works with squared distances (`distSq`) and squared
  thresholds throughout, which keeps every definition executable over `ℚ`.
  The same squaring is applied to the punch body-scale estimate
  `scale = max(shoulderDist, torsoHeight, 0.1)`: squaring commutes with `max`
  on nonnegatives, so `scaleSq = max(shoulderDistSq, torsoHeightSq, 0.01)`
  and `ext/scale > 0.8 ↔ extSq > 0.64 * scaleSq`.
* `Math.random()`-generated string ids are omitted from `Projectile` and
  `FloatingText`: no logic ever reads them.
* `p.width`/`p.height` are the fixed canvas dimensions (1280 × 720), created
  once in `p.setup`.
-/

namespace NewFight

/-- A pose landmark's consulted coordinates (source `Landmark`; `z` and
`visibility` exist in the source type but are never read by the logic). -/
structure Landmark where
  x : ℚ
  y : ℚ
deriving DecidableEq

/-- A 2-d point (source `Point`), used for stored relative wrist positions. -/
structure Point where
  x : ℚ
  y : ℚ
deriving DecidableEq

/-- Which side a player (or a projectile's owner) is on: source `'left' | 'right'`. -/
inductive Side where
  | left
  | right
deriving DecidableEq

/-- Which of a player's hands, the key into `prevWrists`. -/
inductive Hand where
  | left
  | right
deriving DecidableEq

/-- Attack kind (source `Projectile.type : 'standard' | 'special' | 'sword'`). -/
inductive ProjKind where
  | standard
  | special
  | sword
deriving DecidableEq

/-- Axis-aligned hurtbox in canvas pixels (source `PlayerState.boundingBox`). -/
structure BBox where
  minX : ℚ
  minY : ℚ
  maxX : ℚ
  maxY : ℚ
deriving DecidableEq

/-- A projectile (source `Projectile`; the `Math.random()` string `id` is
omitted — nothing reads it). -/
structure Projectile where
  type : ProjKind
  damage : ℚ
  blockDamage : ℚ
  x : ℚ
  y : ℚ
  vx : ℚ
  vy : ℚ
  owner : Side
  active : Bool
deriving DecidableEq

/-- A floating damage text (source `FloatingText`; random `id` omitted). -/
structure FloatingText where
  x : ℚ
  y : ℚ
  text : String
  color : String
  life : ℚ
  maxLife : ℚ
  vy : ℚ
deriving DecidableEq

/-- Per-player state (source `PlayerState`).  `isAI` and `color` are consulted
only by the orchestrator/renderer and are omitted from the embedded record;
the action-classification and simulation fields are kept verbatim. -/
structure PlayerState where
  hp : ℚ
  lastPunchTime : ℚ
  detected : Bool
  isShielding : Bool
  isCharging : Bool
  chargeStartTime : ℚ
  chargeLevel : ℚ
  hasSword : Bool
  prevSwordY : ℚ
  lastSwordFireTime : ℚ
  lastPoseTime : ℚ
  boundingBox : Option BBox
  prevWristLeft : Point
  prevWristRight : Point
deriving DecidableEq

/-- The fixed-index landmarks consulted by the classifier: indices 15 (left
wrist), 16 (right wrist), 11 (left shoulder), 12 (right shoulder),
23 (left hip), 24 (right hip) of a body's landmark array. -/
structure Pose where
  leftWrist : Landmark
  rightWrist : Landmark
  leftShoulder : Landmark
  rightShoulder : Landmark
  leftHip : Landmark
  rightHip : Landmark
deriving DecidableEq

-- Constants (source lines 7–27).
def MAX_HP : ℚ := 100
def PUNCH_COOLDOWN : ℚ := 400
def PROJECTILE_SPEED : ℚ := 15
def SPECIAL_SPEED : ℚ := 10
def EXTENSION_THRESHOLD : ℚ := 0.8
def PUNCH_SPEED_THRESHOLD : ℚ := 0.04
def SHIELD_THRESHOLD : ℚ := 0.25
def SPECIAL_CHARGE_TIME : ℚ := 1500
def CHARGE_GRACE_PERIOD : ℚ := 500
def SWORD_ACTIVATION_DIST : ℚ := 0.15
def SWORD_HEIGHT_THRESHOLD : ℚ := 0.5
def SWORD_SWING_THRESHOLD : ℚ := 0.04
def SWORD_COOLDOWN : ℚ := 800
def DAMAGE_STANDARD : ℚ := 2
def DAMAGE_SPECIAL : ℚ := 10
def DAMAGE_SPECIAL_BLOCK : ℚ := 3
def DAMAGE_SWORD : ℚ := 3
def DAMAGE_SWORD_BLOCK : ℚ := 1
def CANVAS_WIDTH : ℚ := 1280
def CANVAS_HEIGHT : ℚ := 720

/-- Squared Euclidean distance between two landmarks.  Source `getDist`
returns `Math.sqrt` of this value; every use site compares it against a
nonnegative threshold, so the embedding squares both sides (see header). -/
def distSq (a b : Landmark) : ℚ :=
  (a.x - b.x) ^ 2 + (a.y - b.y) ^ 2

/-- A wrist's position relative to its shoulder (source `relX`/`relY` in
`checkHand`). -/
def relPos (wrist shoulder : Landmark) : Point :=
  ⟨wrist.x - shoulder.x, wrist.y - shoulder.y⟩

/-- The stored previous relative wrist position for one hand
(source `playerState.prevWrists[handSide]`). -/
def PlayerState.prevWrist (s : PlayerState) (hand : Hand) : Point :=
  match hand with
  | Hand.left => s.prevWristLeft
  | Hand.right => s.prevWristRight

/-- Overwrite the stored previous relative wrist position for one hand
(source `playerState.prevWrists[handSide] = { x: relX, y: relY }`). -/
def PlayerState.setPrevWrist (s : PlayerState) (hand : Hand) (pt : Point) : PlayerState :=
  match hand with
  | Hand.left => { s with prevWristLeft := pt }
  | Hand.right => { s with prevWristRight := pt }

/-- Source `resetPlayerAction` (lines 439–444). -/
def resetPlayerAction (s : PlayerState) : PlayerState :=
  { s with isShielding := false, isCharging := false, chargeLevel := 0, hasSword := false }

/-- The per-tick handling of a player slot with no detected body
(source `p.draw`, lines 244–254): clear the detection flag and hurtbox and
reset all transient action state.  The returned list records the projectiles
this path spawns — none; `fireSpecial` is reachable only from `detectSpecial`
inside `processPlayer`, which runs only for detected bodies. -/
def undetectedTick (s : PlayerState) : PlayerState × List Projectile :=
  (resetPlayerAction { s with detected := false, boundingBox := none }, [])

/-- Source `detectShield` (lines 446–468): both wrists within the shield
radius of either shoulder raises the shield and force-clears the sword. -/
def detectShield (pose : Pose) (s : PlayerState) : PlayerState :=
  let distLeftToLeftShoulder := distSq pose.leftWrist pose.leftShoulder
  let distLeftToRightShoulder := distSq pose.leftWrist pose.rightShoulder
  let distRightToRightShoulder := distSq pose.rightWrist pose.rightShoulder
  let distRightToLeftShoulder := distSq pose.rightWrist pose.leftShoulder
  let isLeftHandUp :=
    distLeftToLeftShoulder < SHIELD_THRESHOLD ^ 2 ∨ distLeftToRightShoulder < SHIELD_THRESHOLD ^ 2
  let isRightHandUp :=
    distRightToRightShoulder < SHIELD_THRESHOLD ^ 2 ∨ distRightToLeftShoulder < SHIELD_THRESHOLD ^ 2
  if isLeftHandUp ∧ isRightHandUp then
    { s with isShielding := true, hasSword := false }
  else
    { s with isShielding := false }

/-- The raw asymmetric special pose (source `isSpecialPoseRaw`, lines 529–534):
one wrist above its same-side shoulder while the other is below its shoulder. -/
def specialPoseRaw (pose : Pose) : Bool :=
  (decide (pose.leftWrist.y < pose.leftShoulder.y) &&
    decide (pose.rightWrist.y > pose.rightShoulder.y)) ||
  (decide (pose.rightWrist.y < pose.rightShoulder.y) &&
    decide (pose.leftWrist.y > pose.leftShoulder.y))

/-- Source `isHoldingPose` (line 535): the raw pose while neither shielding
nor in sword stance. -/
def isHoldingPose (pose : Pose) (s : PlayerState) : Bool :=
  specialPoseRaw pose && !s.isShielding && !s.hasSword

/-- The special projectile pushed by source `fireSpecial` (lines 564–585). -/
def fireSpecial (pose : Pose) (side : Side) : Projectile :=
  let centerX := (pose.leftWrist.x + pose.rightWrist.x) / 2
  let centerY := (pose.leftWrist.y + pose.rightWrist.y) / 2
  let startX := (1 - centerX) * CANVAS_WIDTH
  let startY := centerY * CANVAS_HEIGHT
  let dir : ℚ := match side with | Side.left => 1 | Side.right => -1
  { type := ProjKind.special, damage := DAMAGE_SPECIAL, blockDamage := DAMAGE_SPECIAL_BLOCK,
    x := startX, y := startY, vx := dir * SPECIAL_SPEED, vy := 0, owner := side, active := true }

/-- Source `detectSpecial` (lines 521–562).  While the asymmetric pose is held
the charge timer runs (`chargeLevel = min 1 (elapsed / SPECIAL_CHARGE_TIME)`);
on a tick the pose is not held, a full charge fires and clears, an incomplete
charge survives within the grace period and is cancelled past it. -/
def detectSpecial (pose : Pose) (now : ℚ) (side : Side) (s : PlayerState) :
    PlayerState × List Projectile :=
  if isHoldingPose pose s then
    let s1 := if s.isCharging then s else { s with isCharging := true, chargeStartTime := now }
    let elapsed := now - s1.chargeStartTime
    (({ s1 with lastPoseTime := now, chargeLevel := min 1 (elapsed / SPECIAL_CHARGE_TIME) }), [])
  else
    if s.isCharging then
      if 1 ≤ s.chargeLevel then
        ({ s with isCharging := false, chargeLevel := 0 }, [fireSpecial pose side])
      else
        if CHARGE_GRACE_PERIOD < now - s.lastPoseTime then
          ({ s with isCharging := false, chargeLevel := 0 }, [])
        else
          (s, [])
    else
      (s, [])

/-- The sword projectile pushed by source `detectSword` (lines 500–511). -/
def swordProjectile (pose : Pose) (currentHandY : ℚ) (side : Side) : Projectile :=
  let centerX := (pose.leftWrist.x + pose.rightWrist.x) / 2
  let startX := (1 - centerX) * CANVAS_WIDTH
  let startY := currentHandY * CANVAS_HEIGHT
  let dir : ℚ := match side with | Side.left => 1 | Side.right => -1
  { type := ProjKind.sword, damage := DAMAGE_SWORD, blockDamage := DAMAGE_SWORD_BLOCK,
    x := startX, y := startY, vx := dir * PROJECTILE_SPEED * 1.2, vy := 0,
    owner := side, active := true }

/-- Source `detectSword` (lines 470–519).  Shield or charge claims the player
first (early return, `prevSwordY` untouched); otherwise stance geometry sets
`hasSword`, a fast vertical swing past the cooldown fires, and `prevSwordY`
is updated to the current hand midpoint. -/
def detectSword (pose : Pose) (now : ℚ) (side : Side) (s : PlayerState) :
    PlayerState × List Projectile :=
  if s.isShielding || s.isCharging then
    ({ s with hasSword := false }, [])
  else
    let currentHandY := (pose.leftWrist.y + pose.rightWrist.y) / 2
    let handDistSq := distSq pose.leftWrist pose.rightWrist
    if handDistSq < SWORD_ACTIVATION_DIST ^ 2 ∧ SWORD_HEIGHT_THRESHOLD < currentHandY then
      if s.prevSwordY ≠ 0 ∧ SWORD_SWING_THRESHOLD < |currentHandY - s.prevSwordY| ∧
          SWORD_COOLDOWN < now - s.lastSwordFireTime then
        ({ s with hasSword := true, lastSwordFireTime := now, prevSwordY := currentHandY },
          [swordProjectile pose currentHandY side])
      else
        ({ s with hasSword := true, prevSwordY := currentHandY }, [])
    else
      ({ s with hasSword := false, prevSwordY := currentHandY }, [])

/-- The standard projectile pushed by source `checkHand` (lines 645–656);
note the spawned `blockDamage` is the literal `0`. -/
def standardProjectile (wrist : Landmark) (side : Side) : Projectile :=
  let startX := (1 - wrist.x) * CANVAS_WIDTH
  let startY := wrist.y * CANVAS_HEIGHT
  let dir : ℚ := match side with | Side.left => 1 | Side.right => -1
  { type := ProjKind.standard, damage := DAMAGE_STANDARD, blockDamage := 0,
    x := startX, y := startY, vx := dir * PROJECTILE_SPEED, vy := 0,
    owner := side, active := true }

/-- The squared punch body-scale estimate (source `scale` in `detectPunch`,
lines 596–598: `max(shoulderDist, torsoHeight, 0.1)`, squared — see header). -/
def punchScaleSq (pose : Pose) : ℚ :=
  max (max (distSq pose.leftShoulder pose.rightShoulder)
        (distSq pose.leftShoulder pose.leftHip)) (0.1 ^ 2)

/-- The three early-return gates of source `checkHand` (lines 607–618),
conjoined: not claimed by shield/charge/sword, punch cooldown elapsed, and
the wrist inside the chest-to-hip height band. -/
def handGatesOk (now : ℚ) (s : PlayerState) (wrist shoulder hip : Landmark) : Bool :=
  !(s.isShielding || s.isCharging || s.hasSword) &&
  !(decide (now - s.lastPunchTime < PUNCH_COOLDOWN)) &&
  !(decide (wrist.y < shoulder.y - 0.1) || decide (wrist.y > hip.y - 0.1))

/-- The squared one-step speed of the relative wrist position
(source `speed`, lines 626–628, squared — see header). -/
def punchSpeedSq (prev rel : Point) : ℚ :=
  (rel.x - prev.x) ^ 2 + (rel.y - prev.y) ^ 2

/-- The combined fire condition of source `checkHand` (line 638):
`speed > PUNCH_SPEED_THRESHOLD && ext / scale > EXTENSION_THRESHOLD`,
with both comparisons squared (see header). -/
def handFireOk (prev rel : Point) (wrist shoulder : Landmark) (scaleSq : ℚ) : Bool :=
  decide (PUNCH_SPEED_THRESHOLD ^ 2 < punchSpeedSq prev rel) &&
  decide (EXTENSION_THRESHOLD ^ 2 * scaleSq < distSq wrist shoulder)

/-- Source `checkHand` (lines 604–658).  Past the gates, the stored previous
relative wrist position is overwritten with the current one (this happens
whether or not the punch fires); a fire stamps `lastPunchTime := now` and
spawns a standard projectile. -/
def checkHand (now : ℚ) (side : Side) (hand : Hand) (wrist shoulder hip : Landmark)
    (scaleSq : ℚ) (s : PlayerState) : PlayerState × Option Projectile :=
  if handGatesOk now s wrist shoulder hip then
    let rel := relPos wrist shoulder
    let s1 := s.setPrevWrist hand rel
    if handFireOk (s.prevWrist hand) rel wrist shoulder scaleSq then
      ({ s1 with lastPunchTime := now }, some (standardProjectile wrist side))
    else
      (s1, none)
  else
    (s, none)

/-- Source `detectPunch` (lines 587–602): check the left hand, then the right
hand against the state left behind by the left-hand check. -/
def detectPunch (pose : Pose) (now : ℚ) (side : Side) (s : PlayerState) :
    PlayerState × List Projectile :=
  let scaleSq := punchScaleSq pose
  let a := checkHand now side Hand.left pose.leftWrist pose.leftShoulder pose.leftHip scaleSq s
  let b := checkHand now side Hand.right pose.rightWrist pose.rightShoulder pose.rightHip
    scaleSq a.1
  (b.1, a.2.toList ++ b.2.toList)

/-- The hurtbox computed by source `processPlayer` (lines 405–418): min/max of
every landmark of the body, mirrored horizontally into canvas space. -/
def computeBBox (lms : List Landmark) : BBox :=
  let acc := lms.foldl
    (fun (a : ℚ × ℚ × ℚ × ℚ) (lm : Landmark) =>
      (min a.1 lm.x, min a.2.1 lm.y, max a.2.2.1 lm.x, max a.2.2.2 lm.y))
    (1, 1, 0, 0)
  { minX := (1 - acc.2.2.1) * CANVAS_WIDTH, maxX := (1 - acc.1) * CANVAS_WIDTH,
    minY := acc.2.1 * CANVAS_HEIGHT, maxY := acc.2.2.2 * CANVAS_HEIGHT }

/-- Source `processPlayer` (lines 400–430) for a detected body: mark detected,
refresh the hurtbox, then run the detection pipeline
shield → special → sword, and punch only if none of the three claimed the
player.  `lms` is the body's full landmark array (used for the hurtbox);
`pose` collects its fixed-index landmarks 11/12/15/16/23/24.  The returned
list concatenates every projectile the tick pushed, in source push order. -/
def processPlayer (lms : List Landmark) (pose : Pose) (now : ℚ) (side : Side)
    (s : PlayerState) : PlayerState × List Projectile :=
  let s0 := { s with detected := true, boundingBox := some (computeBBox lms) }
  let s1 := detectShield pose s0
  let sp := detectSpecial pose now side s1
  let sw := detectSword pose now side sp.1
  if !sw.1.isShielding && !sw.1.isCharging && !sw.1.hasSword then
    let pu := detectPunch pose now side sw.1
    (pu.1, sp.2 ++ sw.2 ++ pu.2)
  else
    (sw.1, sp.2 ++ sw.2)

/-- Kind-dependent hit padding (source line 865). -/
def hitPadding (k : ProjKind) : ℚ :=
  match k with
  | ProjKind.special => 100
  | _ => 20

/-- The padded point-in-hurtbox test of source `updateProjectiles`
(lines 867–868). -/
def inHitbox (bbox : BBox) (pad x y : ℚ) : Bool :=
  decide (bbox.minX - pad < x) && decide (x < bbox.maxX + pad) &&
  decide (bbox.minY - pad < y) && decide (y < bbox.maxY + pad)

/-- The hit-resolution block of source `updateProjectiles` (lines 870–895):
blocked damage when the target shields, hp decremented only when the damage
is positive, and a floating text at the projectile's position. -/
def resolveHit (target : PlayerState) (proj : Projectile) : PlayerState × FloatingText :=
  let actualDamage := if target.isShielding then proj.blockDamage else proj.damage
  let color := if target.isShielding then "#FFD700" else "#ff2222"
  let hitText :=
    if target.isShielding then
      (if actualDamage = 0 then "Blocked!" else "Block! -" ++ toString (round actualDamage))
    else
      "-" ++ toString (round actualDamage)
  let target1 := if 0 < actualDamage then { target with hp := target.hp - actualDamage } else target
  (target1,
    { x := proj.x, y := proj.y, text := hitText, color := color,
      life := 40, maxLife := 40, vy := -3 })

/-- One tick of a projectile's motion (source lines 854–855). -/
def moveProj (proj : Projectile) : Projectile :=
  { proj with x := proj.x + proj.vx, y := proj.y + proj.vy }

/-- The out-of-bounds removal test of source `updateProjectiles` (line 857). -/
def isOOB (proj : Projectile) : Bool :=
  decide (proj.x < -100) || decide (proj.x > CANVAS_WIDTH + 100)

/-- The player a projectile is tested against (source line 862). -/
def targetOf (proj : Projectile) (l r : PlayerState) : PlayerState :=
  match proj.owner with
  | Side.left => r
  | Side.right => l

/-- One iteration of the source `updateProjectiles` loop body (lines 853–899)
for a single projectile: move, drop if out of bounds (no damage, no text),
otherwise test against the opposing player's hurtbox when it exists and
resolve a hit (consuming the projectile).  Returns the surviving projectile
(if any), the two updated players, and the emitted floating text (if any). -/
def stepOne (l r : PlayerState) (proj : Projectile) :
    Option Projectile × PlayerState × PlayerState × Option FloatingText :=
  let m := moveProj proj
  if isOOB m then
    (none, l, r, none)
  else
    let target := targetOf proj l r
    match target.boundingBox with
    | none => (some m, l, r, none)
    | some bbox =>
      if inHitbox bbox (hitPadding m.type) m.x m.y then
        let res := resolveHit target m
        match proj.owner with
        | Side.left => (none, l, res.1, some res.2)
        | Side.right => (none, res.1, r, some res.2)
      else
        (some m, l, r, none)

/-- Source `updateProjectiles` (lines 851–901).  The source iterates the
projectile array from the last index down to 0, splicing out removed entries;
this recursion therefore processes the tail (the later-pushed projectiles)
first, threading the two player records through, keeps survivors in their
original order, and appends floating texts in source push order. -/
def updateProjectiles : List Projectile → PlayerState → PlayerState →
    List Projectile × PlayerState × PlayerState × List FloatingText
  | [], l, r => ([], l, r, [])
  | proj :: rest, l, r =>
    match updateProjectiles rest l r with
    | (survivors, l1, r1, fts) =>
      match stepOne l1 r1 proj with
      | (kept, l2, r2, ft) => (kept.toList ++ survivors, l2, r2, fts ++ ft.toList)

/-- The landmark indices the per-tick processing dereferences with no
presence check: 11/12 in the slot assignment of `p.draw` (line 228) and
11/12/15/16/23/24 in `detectShield`/`detectSpecial`/`detectSword`/
`detectPunch`. -/
def requiredLandmarkIndices : List Nat := [11, 12, 15, 16, 23, 24]

/-- Whether a body's landmark array actually contains every index the
processing dereferences.  The source performs no such check. -/
def hasRequiredLandmarks (lms : List Landmark) : Bool :=
  requiredLandmarkIndices.all (fun i => decide (i < lms.length))

/-! Concrete scenarios used by counterexamples and witnesses. -/

/-- A player mid-charge: `chargeLevel = 1/2`, pose last held at t = 700 ms. -/
def shieldGraceState : PlayerState :=
  { hp := 100, lastPunchTime := 0, detected := true, isShielding := false,
    isCharging := true, chargeStartTime := 0, chargeLevel := 1/2, hasSword := false,
    prevSwordY := 0, lastSwordFireTime := 0, lastPoseTime := 700, boundingBox := none,
    prevWristLeft := ⟨0, 0⟩, prevWristRight := ⟨0, 0⟩ }

/-- Both wrists a distance 1/20 below their shoulders: well inside the shield
radius 0.25, and not the asymmetric special pose. -/
def shieldGracePose : Pose :=
  { leftWrist := ⟨2/5, 9/20⟩, rightWrist := ⟨3/5, 9/20⟩,
    leftShoulder := ⟨2/5, 1/2⟩, rightShoulder := ⟨3/5, 1/2⟩,
    leftHip := ⟨2/5, 4/5⟩, rightHip := ⟨3/5, 4/5⟩ }

/-- The landmark array backing `shieldGracePose`. -/
def shieldGraceLms : List Landmark :=
  [⟨2/5, 1/2⟩, ⟨3/5, 1/2⟩, ⟨2/5, 9/20⟩, ⟨3/5, 9/20⟩, ⟨2/5, 4/5⟩, ⟨3/5, 4/5⟩]

/-- An idle player with no action claimed and the punch cooldown long elapsed. -/
def bothPunchState : PlayerState :=
  { hp := 100, lastPunchTime := 0, detected := true, isShielding := false,
    isCharging := false, chargeStartTime := 0, chargeLevel := 0, hasSword := false,
    prevSwordY := 0, lastSwordFireTime := 0, lastPoseTime := 0, boundingBox := none,
    prevWristLeft := ⟨0, 0⟩, prevWristRight := ⟨0, 0⟩ }

/-- Both wrists inside the chest band, extended past the extension ratio, and
fast relative to the stored previous positions: both hands satisfy every
punch condition at once. -/
def bothPunchPose : Pose :=
  { leftWrist := ⟨0, 11/20⟩, rightWrist := ⟨1, 11/20⟩,
    leftShoulder := ⟨3/10, 2/5⟩, rightShoulder := ⟨7/10, 2/5⟩,
    leftHip := ⟨3/10, 4/5⟩, rightHip := ⟨7/10, 4/5⟩ }

/-- A fully charged player (`chargeLevel = 1`), pose last held at t = 1600 ms. -/
def chargedState : PlayerState :=
  { hp := 100, lastPunchTime := 0, detected := true, isShielding := false,
    isCharging := true, chargeStartTime := 0, chargeLevel := 1, hasSword := false,
    prevSwordY := 0, lastSwordFireTime := 0, lastPoseTime := 1600, boundingBox := none,
    prevWristLeft := ⟨0, 0⟩, prevWristRight := ⟨0, 0⟩ }

/-- The asymmetric special pose: left wrist above its shoulder, right wrist
below its shoulder. -/
def heldPose : Pose :=
  { leftWrist := ⟨2/5, 3/10⟩, rightWrist := ⟨3/5, 7/10⟩,
    leftShoulder := ⟨2/5, 1/2⟩, rightShoulder := ⟨3/5, 1/2⟩,
    leftHip := ⟨2/5, 9/10⟩, rightHip := ⟨3/5, 9/10⟩ }

/-- Both wrists below both shoulders: not the special pose, and far from the
shoulders so no shield either. -/
def releasedPose : Pose :=
  { leftWrist := ⟨2/5, 7/10⟩, rightWrist := ⟨3/5, 7/10⟩,
    leftShoulder := ⟨2/5, 1/2⟩, rightShoulder := ⟨3/5, 1/2⟩,
    leftHip := ⟨2/5, 9/10⟩, rightHip := ⟨3/5, 9/10⟩ }

/-- A quiescent player with no hurtbox (`boundingBox = none`). -/
def basePlayer : PlayerState :=
  { hp := 100, lastPunchTime := 0, detected := false, isShielding := false,
    isCharging := false, chargeStartTime := 0, chargeLevel := 0, hasSword := false,
    prevSwordY := 0, lastSwordFireTime := 0, lastPoseTime := 0, boundingBox := none,
    prevWristLeft := ⟨0, 0⟩, prevWristRight := ⟨0, 0⟩ }

/-- A projectile that crosses the right out-of-bounds margin on its next move
(x = 1300, vx = 100; the margin is CANVAS_WIDTH + 100 = 1380). -/
def oobProj : Projectile :=
  { type := ProjKind.standard, damage := 2, blockDamage := 0, x := 1300, y := 360,
    vx := 100, vy := 0, owner := Side.left, active := true }

/-- A projectile still well inside the canvas after its next move. -/
def inFlightProj : Projectile :=
  { type := ProjKind.standard, damage := 2, blockDamage := 0, x := 0, y := 360,
    vx := 15, vy := 0, owner := Side.left, active := true }

/-- A right-owned projectile (targeting the left player) still well inside
the canvas after its next move. -/
def inFlightProjR : Projectile :=
  { type := ProjKind.standard, damage := 2, blockDamage := 0, x := 1280, y := 360,
    vx := -15, vy := 0, owner := Side.right, active := true }

/-- Tick-1 pose of the stale-baseline scenario: the left hand fires a punch
(in band, extended, fast against the stored origin); the right wrist sits
above its chest band and is ignored. -/
def stalePose1 : Pose :=
  { leftWrist := ⟨0, 11/20⟩, rightWrist := ⟨1, 1/10⟩,
    leftShoulder := ⟨3/10, 2/5⟩, rightShoulder := ⟨7/10, 2/5⟩,
    leftHip := ⟨3/10, 4/5⟩, rightHip := ⟨7/10, 4/5⟩ }

/-- Tick-2 and tick-3 pose of the stale-baseline scenario: the left wrist has
moved down to y = 3/5 and then stays perfectly still. -/
def stalePose2 : Pose :=
  { leftWrist := ⟨0, 3/5⟩, rightWrist := ⟨1, 1/10⟩,
    leftShoulder := ⟨3/10, 2/5⟩, rightShoulder := ⟨7/10, 2/5⟩,
    leftHip := ⟨3/10, 4/5⟩, rightHip := ⟨7/10, 4/5⟩ }

end NewFight

/-! Helper lemmas about the classifier pipeline. -/

namespace NewFight

lemma detectShield_charge_fields (pose : Pose) (s : PlayerState) :
    (detectShield pose s).isCharging = s.isCharging ∧
    (detectShield pose s).chargeLevel = s.chargeLevel ∧
    (detectShield pose s).chargeStartTime = s.chargeStartTime ∧
    (detectShield pose s).lastPoseTime = s.lastPoseTime := by
  simp only [detectShield]
  split_ifs <;> simp

lemma detectSpecial_shield_sword (pose : Pose) (now : ℚ) (side : Side) (s : PlayerState) :
    (detectSpecial pose now side s).1.isShielding = s.isShielding ∧
    (detectSpecial pose now side s).1.hasSword = s.hasSword := by
  simp only [detectSpecial]
  split_ifs <;> simp

lemma detectSword_preserv (pose : Pose) (now : ℚ) (side : Side) (s : PlayerState) :
    (detectSword pose now side s).1.isShielding = s.isShielding ∧
    (detectSword pose now side s).1.isCharging = s.isCharging ∧
    (detectSword pose now side s).1.chargeLevel = s.chargeLevel ∧
    (detectSword pose now side s).1.lastPoseTime = s.lastPoseTime := by
  simp only [detectSword]
  split_ifs <;> simp

lemma detectSword_hasSword (pose : Pose) (now : ℚ) (side : Side) (s : PlayerState)
    (h : (detectSword pose now side s).1.hasSword = true) :
    s.isShielding = false ∧ s.isCharging = false := by
  simp only [detectSword] at h
  split_ifs at h <;> simp_all

lemma checkHand_preserv (now : ℚ) (side : Side) (hand : Hand) (w sh hp : Landmark)
    (scaleSq : ℚ) (s : PlayerState) :
    (checkHand now side hand w sh hp scaleSq s).1.isShielding = s.isShielding ∧
    (checkHand now side hand w sh hp scaleSq s).1.isCharging = s.isCharging ∧
    (checkHand now side hand w sh hp scaleSq s).1.hasSword = s.hasSword ∧
    (checkHand now side hand w sh hp scaleSq s).1.chargeLevel = s.chargeLevel ∧
    (checkHand now side hand w sh hp scaleSq s).1.lastPoseTime = s.lastPoseTime := by
  cases hand <;>
    (simp only [checkHand, PlayerState.setPrevWrist]; split_ifs <;> simp)

lemma detectPunch_preserv (pose : Pose) (now : ℚ) (side : Side) (s : PlayerState) :
    (detectPunch pose now side s).1.isShielding = s.isShielding ∧
    (detectPunch pose now side s).1.isCharging = s.isCharging ∧
    (detectPunch pose now side s).1.hasSword = s.hasSword ∧
    (detectPunch pose now side s).1.chargeLevel = s.chargeLevel ∧
    (detectPunch pose now side s).1.lastPoseTime = s.lastPoseTime := by
  have h1 := checkHand_preserv now side Hand.left pose.leftWrist pose.leftShoulder
    pose.leftHip (punchScaleSq pose) s
  have h2 := checkHand_preserv now side Hand.right pose.rightWrist pose.rightShoulder
    pose.rightHip (punchScaleSq pose)
    (checkHand now side Hand.left pose.leftWrist pose.leftShoulder pose.leftHip
      (punchScaleSq pose) s).1
  simp only [detectPunch]
  obtain ⟨a1, a2, a3, a4, a5⟩ := h1
  obtain ⟨b1, b2, b3, b4, b5⟩ := h2
  refine ⟨?_, ?_, ?_, ?_, ?_⟩ <;> simp_all

lemma detectSpecial_shielding_charging (pose : Pose) (now : ℚ) (side : Side) (s : PlayerState)
    (hsh : s.isShielding = true)
    (hch : (detectSpecial pose now side s).1.isCharging = true) :
    (detectSpecial pose now side s).1 = s ∧ s.chargeLevel < 1 ∧
    now - s.lastPoseTime ≤ CHARGE_GRACE_PERIOD := by
  simp only [detectSpecial, isHoldingPose, hsh, Bool.not_true, Bool.and_false,
    Bool.false_and, Bool.and_false] at hch ⊢
  split_ifs at hch ⊢ with h1 h2 h3 <;> simp_all

end NewFight

/-! Claim theorems. -/

namespace NewFight

/-- Claim C1 (amended): after a full detected-player tick, sword stance is
mutually exclusive with both shield and charge (shield geometry and a charge
claim both force `hasSword := false`); but shield and charge are *not*
mutually exclusive — when both flags survive a tick together, the charge is
necessarily incomplete (`chargeLevel < 1`) and still inside its grace window. -/
theorem c1_flag_exclusivity_amended (lms : List Landmark) (pose : Pose) (now : ℚ)
    (side : Side) (s : PlayerState) :
    ((processPlayer lms pose now side s).1.hasSword = false ∨
      ((processPlayer lms pose now side s).1.isShielding = false ∧
        (processPlayer lms pose now side s).1.isCharging = false)) ∧
    ((processPlayer lms pose now side s).1.isShielding = false ∨
      (processPlayer lms pose now side s).1.isCharging = false ∨
      ((processPlayer lms pose now side s).1.chargeLevel < 1 ∧
        now - (processPlayer lms pose now side s).1.lastPoseTime ≤ CHARGE_GRACE_PERIOD)) := by
  simp only [processPlayer]
  set s0 : PlayerState := { s with detected := true, boundingBox := some (computeBBox lms) }
    with hs0
  set s1 := detectShield pose s0 with hs1
  set sp := detectSpecial pose now side s1 with hsp
  set sw := detectSword pose now side sp.1 with hsw
  have w := detectSword_preserv pose now side sp.1
  rw [← hsw] at w
  obtain ⟨w1, w2, w3, w4⟩ := w
  have q := detectSpecial_shield_sword pose now side s1
  rw [← hsp] at q
  obtain ⟨q1, q2⟩ := q
  by_cases hpunch : (!sw.1.isShielding && !sw.1.isCharging && !sw.1.hasSword) = true
  · rw [if_pos hpunch]
    obtain ⟨p1, p2, p3, p4, p5⟩ := detectPunch_preserv pose now side sw.1
    simp only [Bool.and_eq_true, Bool.not_eq_true'] at hpunch
    constructor
    · left
      show (detectPunch pose now side sw.1).1.hasSword = false
      rw [p3]; exact hpunch.2
    · left
      show (detectPunch pose now side sw.1).1.isShielding = false
      rw [p1]; exact hpunch.1.1
  · rw [if_neg hpunch]
    constructor
    · by_cases hsw1 : sw.1.hasSword = true
      · have e := detectSword_hasSword pose now side sp.1 (by rw [← hsw]; exact hsw1)
        right
        refine ⟨?_, ?_⟩
        · show sw.1.isShielding = false
          rw [w1]; exact e.1
        · show sw.1.isCharging = false
          rw [w2]; exact e.2
      · left
        show sw.1.hasSword = false
        simpa using hsw1
    · by_cases hshld : sw.1.isShielding = true
      · by_cases hchg : sw.1.isCharging = true
        · right; right
          have hsp_sh : s1.isShielding = true := by rw [w1] at hshld; rw [q1] at hshld; exact hshld
          have hsp_ch : sp.1.isCharging = true := by rw [← w2]; exact hchg
          have hd := detectSpecial_shielding_charging pose now side s1 hsp_sh
            (by rw [← hsp]; exact hsp_ch)
          rw [← hsp] at hd
          obtain ⟨heq, hlt, hle⟩ := hd
          refine ⟨?_, ?_⟩
          · show sw.1.chargeLevel < 1
            rw [w3, heq]; exact hlt
          · show now - sw.1.lastPoseTime ≤ CHARGE_GRACE_PERIOD
            rw [w4, heq]; exact hle
        · right; left
          show sw.1.isCharging = false
          simpa using hchg
      · left
        show sw.1.isShielding = false
        simpa using hshld

/-- Claim C1 counterexample: a tick at t = 800 ms on which the shield geometry
holds (`shieldGracePose`) while a charge is in progress with
`chargeLevel = 1/2` and the pose last held at t = 700 ms (inside the 500 ms
grace period) leaves **both** `isShielding` and `isCharging` true, refuting
the claimed mutual exclusion of shield and charge. -/
theorem c1_shield_and_charge_coexist :
    (processPlayer shieldGraceLms shieldGracePose 800 Side.left shieldGraceState).1.isShielding
        = true ∧
    (processPlayer shieldGraceLms shieldGracePose 800 Side.left shieldGraceState).1.isCharging
        = true := by
  norm_num [processPlayer, detectShield, detectSpecial, detectSword, detectPunch,
    checkHand, isHoldingPose, specialPoseRaw, distSq, shieldGraceState, shieldGracePose,
    shieldGraceLms, SHIELD_THRESHOLD, CHARGE_GRACE_PERIOD]

end NewFight

namespace NewFight

lemma checkHand_fired_lastPunch (now : ℚ) (side : Side) (hand : Hand) (w sh hp : Landmark)
    (scaleSq : ℚ) (s : PlayerState) (pr : Projectile)
    (h : (checkHand now side hand w sh hp scaleSq s).2 = some pr) :
    (checkHand now side hand w sh hp scaleSq s).1.lastPunchTime = now := by
  cases hand <;>
    (simp only [checkHand, PlayerState.setPrevWrist] at h ⊢; split_ifs at h ⊢ <;> simp_all)

lemma checkHand_cooldown_blocked (now : ℚ) (side : Side) (hand : Hand) (w sh hp : Landmark)
    (scaleSq : ℚ) (s : PlayerState) (h : s.lastPunchTime = now) :
    checkHand now side hand w sh hp scaleSq s = (s, none) := by
  have hc : now - s.lastPunchTime < PUNCH_COOLDOWN := by
    rw [h, sub_self]; norm_num [PUNCH_COOLDOWN]
  simp [checkHand, handGatesOk, hc]

/-- Claim C2 (amended): the two hands are checked independently in the order
left-then-right, but a fire by the first hand stamps the shared per-player
`lastPunchTime`, so the second hand is always blocked by the cooldown on the
same tick: a player's punch check spawns at most one standard projectile per
tick, never two. -/
theorem c2_amended_at_most_one (pose : Pose) (now : ℚ) (side : Side) (s : PlayerState) :
    (detectPunch pose now side s).2.length ≤ 1 := by
  simp only [detectPunch]
  rcases h2 : (checkHand now side Hand.left pose.leftWrist pose.leftShoulder pose.leftHip
      (punchScaleSq pose) s).2 with _ | pr
  · rcases (checkHand now side Hand.right pose.rightWrist pose.rightShoulder pose.rightHip
        (punchScaleSq pose)
        (checkHand now side Hand.left pose.leftWrist pose.leftShoulder pose.leftHip
          (punchScaleSq pose) s).1).2 with _ | pr2 <;> simp [h2]
  · have hl := checkHand_fired_lastPunch now side Hand.left pose.leftWrist pose.leftShoulder
      pose.leftHip (punchScaleSq pose) s pr h2
    have hb := checkHand_cooldown_blocked now side Hand.right pose.rightWrist
      pose.rightShoulder pose.rightHip (punchScaleSq pose)
      (checkHand now side Hand.left pose.leftWrist pose.leftShoulder pose.leftHip
        (punchScaleSq pose) s).1 hl
    rw [hb]
    simp [h2]

/-- Claim C2 counterexample: at t = 1000 ms both hands of `bothPunchState`
satisfy the height-band, velocity, extension and cooldown conditions
(`handGatesOk`/`handFireOk` hold for each hand against the tick-start state),
yet the tick spawns exactly one standard projectile — the left hand's — not
two: the left fire resets the cooldown and suppresses the right hand. -/
theorem c2_both_hands_single_projectile :
    handGatesOk 1000 bothPunchState bothPunchPose.leftWrist bothPunchPose.leftShoulder
        bothPunchPose.leftHip = true ∧
    handFireOk (bothPunchState.prevWrist Hand.left)
        (relPos bothPunchPose.leftWrist bothPunchPose.leftShoulder)
        bothPunchPose.leftWrist bothPunchPose.leftShoulder (punchScaleSq bothPunchPose) = true ∧
    handGatesOk 1000 bothPunchState bothPunchPose.rightWrist bothPunchPose.rightShoulder
        bothPunchPose.rightHip = true ∧
    handFireOk (bothPunchState.prevWrist Hand.right)
        (relPos bothPunchPose.rightWrist bothPunchPose.rightShoulder)
        bothPunchPose.rightWrist bothPunchPose.rightShoulder (punchScaleSq bothPunchPose) = true ∧
    (detectPunch bothPunchPose 1000 Side.left bothPunchState).2
      = [standardProjectile bothPunchPose.leftWrist Side.left] := by
  norm_num [handGatesOk, handFireOk, detectPunch, checkHand, punchScaleSq, punchSpeedSq,
    relPos, distSq, PlayerState.prevWrist, PlayerState.setPrevWrist, bothPunchState,
    bothPunchPose, PUNCH_COOLDOWN, PUNCH_SPEED_THRESHOLD, EXTENSION_THRESHOLD]

end NewFight

namespace NewFight

/-- Claim C3: while the asymmetric pose is held, `detectSpecial` spawns
nothing — even at full charge; on a tick the pose is not held while the
player is charging with `chargeLevel ≥ 1`, exactly one special projectile
(damage 10, blocked damage 3) is spawned and charging clears, with
`chargeLevel = 0`. -/
theorem c3_special_fires_only_on_release (poseH poseR : Pose) (nowH nowR : ℚ) (side : Side)
    (sH sR : PlayerState)
    (hheld : isHoldingPose poseH sH = true)
    (hrel : isHoldingPose poseR sR = false)
    (hch : sR.isCharging = true)
    (hfull : 1 ≤ sR.chargeLevel) :
    (detectSpecial poseH nowH side sH).2 = [] ∧
    (detectSpecial poseR nowR side sR).2 = [fireSpecial poseR side] ∧
    (detectSpecial poseR nowR side sR).1.isCharging = false ∧
    (detectSpecial poseR nowR side sR).1.chargeLevel = 0 ∧
    (fireSpecial poseR side).type = ProjKind.special ∧
    (fireSpecial poseR side).damage = 10 ∧
    (fireSpecial poseR side).blockDamage = 3 := by
  refine ⟨?_, ?_, ?_, ?_, ?_, ?_, ?_⟩
  · simp [detectSpecial, hheld]
  · simp [detectSpecial, hrel, hch, hfull]
  · simp [detectSpecial, hrel, hch, hfull]
  · simp [detectSpecial, hrel, hch, hfull]
  · simp [fireSpecial]
  · simp [fireSpecial, DAMAGE_SPECIAL]
  · simp [fireSpecial, DAMAGE_SPECIAL_BLOCK]

/-- Witness for C3: a fully charged player holding the pose at t = 1700 ms
spawns nothing; releasing it at t = 2000 ms spawns exactly the special
projectile and clears the charge. -/
theorem c3_witness :
    (detectSpecial releasedPose 2000 Side.left chargedState).2
      = [fireSpecial releasedPose Side.left] ∧
    (detectSpecial heldPose 1700 Side.left chargedState).2 = [] ∧
    (detectSpecial releasedPose 2000 Side.left chargedState).1.isCharging = false ∧
    (detectSpecial releasedPose 2000 Side.left chargedState).1.chargeLevel = 0 := by
  have h := c3_special_fires_only_on_release heldPose releasedPose 1700 2000 Side.left
    chargedState chargedState
    (by norm_num [isHoldingPose, specialPoseRaw, heldPose, chargedState])
    (by norm_num [isHoldingPose, specialPoseRaw, releasedPose, chargedState])
    (by norm_num [chargedState])
    (by norm_num [chargedState])
  exact ⟨h.2.1, h.1, h.2.2.1, h.2.2.2.1⟩

end NewFight

/-! Simulator lemmas. -/

namespace NewFight

lemma stepOne_oob (l r : PlayerState) (proj : Projectile)
    (h : isOOB (moveProj proj) = true) :
    stepOne l r proj = (none, l, r, none) := by
  simp only [stepOne]
  rw [if_pos h]

lemma stepOne_kept_not_oob (l r : PlayerState) (proj q : Projectile)
    (h : (stepOne l r proj).1 = some q) : isOOB q = false := by
  by_cases h1 : isOOB (moveProj proj) = true
  · rw [stepOne_oob l r proj h1] at h
    simp at h
  · have h1x : isOOB (moveProj proj) = false := by simpa using h1
    simp only [stepOne] at h
    rw [if_neg h1] at h
    split at h
    · simp at h
      rw [← h]
      exact h1x
    · split_ifs at h with h2
      · split at h <;> simp at h
      · simp at h
        rw [← h]
        exact h1x

lemma updateProjectiles_not_oob (ps : List Projectile) (l r : PlayerState) :
    ∀ q ∈ (updateProjectiles ps l r).1, isOOB q = false := by
  induction ps generalizing l r with
  | nil => intro q hq; simp [updateProjectiles] at hq
  | cons p rest ih =>
    intro q hq
    simp only [updateProjectiles] at hq
    rcases hrec : updateProjectiles rest l r with ⟨survivors, l1, r1, fts⟩
    rw [hrec] at hq
    rcases hstep : stepOne l1 r1 p with ⟨kept, l2, r2, ft⟩
    rw [hstep] at hq
    rcases kept with _ | kp
    · simp at hq
      exact ih l r q (by rw [hrec]; exact hq)
    · simp at hq
      rcases hq with hq | hq
      · subst hq
        exact stepOne_kept_not_oob l1 r1 p q (by rw [hstep])
      · exact ih l r q (by rw [hrec]; exact hq)

lemma stepOne_right_unchanged (l r : PlayerState) (p : Projectile)
    (hbb : r.boundingBox = none) : (stepOne l r p).2.2.1 = r := by
  cases ho : p.owner
  case left =>
    simp only [stepOne, targetOf, ho]
    split_ifs with h1
    · rfl
    · rw [hbb]
  case right =>
    simp only [stepOne, targetOf, ho]
    split_ifs with h1
    · rfl
    · split
      · rfl
      · split_ifs with h2 <;> rfl

lemma updateProjectiles_right_unchanged (ps : List Projectile) (l r : PlayerState)
    (hbb : r.boundingBox = none) : (updateProjectiles ps l r).2.2.1 = r := by
  induction ps generalizing l with
  | nil => simp [updateProjectiles]
  | cons p rest ih =>
    simp only [updateProjectiles]
    rcases hrec : updateProjectiles rest l r with ⟨survivors, l1, r1, fts⟩
    have hr1 : r1 = r := by have hx := ih l; rw [hrec] at hx; exact hx
    rcases hstep : stepOne l1 r1 p with ⟨kept, l2, r2, ft⟩
    have hr2 : r2 = r := by
      have hx := stepOne_right_unchanged l1 r1 p (by rw [hr1]; exact hbb)
      rw [hstep] at hx
      simp at hx
      rw [hx, hr1]
    simp only [hrec, hstep]
    simpa using hr2

lemma stepOne_target_missing (l r : PlayerState) (p : Projectile)
    (hbb : r.boundingBox = none) (ho : p.owner = Side.left)
    (hoob : isOOB (moveProj p) = false) :
    stepOne l r p = (some (moveProj p), l, r, none) := by
  simp only [stepOne, targetOf, ho]
  rw [if_neg (by simp [hoob])]
  rw [hbb]

lemma stepOne_left_unchanged (l r : PlayerState) (p : Projectile)
    (hbb : l.boundingBox = none) : (stepOne l r p).2.1 = l := by
  cases ho : p.owner
  case right =>
    simp only [stepOne, targetOf, ho]
    split_ifs with h1
    · rfl
    · rw [hbb]
  case left =>
    simp only [stepOne, targetOf, ho]
    split_ifs with h1
    · rfl
    · split
      · rfl
      · split_ifs with h2 <;> rfl

lemma updateProjectiles_left_unchanged (ps : List Projectile) (l r : PlayerState)
    (hbb : l.boundingBox = none) : (updateProjectiles ps l r).2.1 = l := by
  induction ps generalizing r with
  | nil => simp [updateProjectiles]
  | cons p rest ih =>
    simp only [updateProjectiles]
    rcases hrec : updateProjectiles rest l r with ⟨survivors, l1, r1, fts⟩
    have hl1 : l1 = l := by have hx := ih r; rw [hrec] at hx; exact hx
    rcases hstep : stepOne l1 r1 p with ⟨kept, l2, r2, ft⟩
    have hl2 : l2 = l := by
      have hx := stepOne_left_unchanged l1 r1 p (by rw [hl1]; exact hbb)
      rw [hstep] at hx
      simp at hx
      rw [hx, hl1]
    simp only [hrec, hstep]
    simpa using hl2

lemma stepOne_target_missing_left (l r : PlayerState) (p : Projectile)
    (hbb : l.boundingBox = none) (ho : p.owner = Side.right)
    (hoob : isOOB (moveProj p) = false) :
    stepOne l r p = (some (moveProj p), l, r, none) := by
  simp only [stepOne, targetOf, ho]
  rw [if_neg (by simp [hoob])]
  rw [hbb]

/-- Claim C4: a projectile's per-tick position update is exactly
`x += vx, y += vy`; a moved projectile past the horizontal out-of-bounds
margin is removed with both players untouched and no floating text; and every
projectile surviving a simulator tick is in bounds (a removed projectile is
gone from the collection, so it can never damage anything afterwards). -/
theorem c4_additive_motion_and_oob_removal (l r : PlayerState) (proj : Projectile)
    (ps : List Projectile) (l2 r2 : PlayerState)
    (h : isOOB (moveProj proj) = true) :
    (moveProj proj).x = proj.x + proj.vx ∧
    (moveProj proj).y = proj.y + proj.vy ∧
    stepOne l r proj = (none, l, r, none) ∧
    ∀ q ∈ (updateProjectiles ps l2 r2).1, isOOB q = false :=
  ⟨rfl, rfl, stepOne_oob l r proj h, updateProjectiles_not_oob ps l2 r2⟩

/-- Witness for C4: a concrete projectile at x = 1300 with vx = 100 moves to
1400 > 1380 and is removed with no damage and no text. -/
theorem c4_witness :
    stepOne basePlayer basePlayer oobProj = (none, basePlayer, basePlayer, none) ∧
    (moveProj oobProj).x = oobProj.x + oobProj.vx := by
  have h := c4_additive_motion_and_oob_removal basePlayer basePlayer oobProj []
    basePlayer basePlayer (by norm_num [isOOB, moveProj, oobProj, CANVAS_WIDTH])
  exact ⟨h.2.2.1, h.1⟩

/-- Claim C5: the spawned projectiles carry exactly the fixed damage table
(standard 2/0, special 10/3, sword 3/1); a resolved hit subtracts the blocked
value exactly when the target is shielding and the direct value otherwise;
and for every attack kind the hp left while shielding is strictly greater
than the hp left unshielded. -/
theorem c5_damage_table (w : Landmark) (pose : Pose) (y : ℚ) (side : Side)
    (tgt : PlayerState) :
    (standardProjectile w side).damage = 2 ∧ (standardProjectile w side).blockDamage = 0 ∧
    (fireSpecial pose side).damage = 10 ∧ (fireSpecial pose side).blockDamage = 3 ∧
    (swordProjectile pose y side).damage = 3 ∧ (swordProjectile pose y side).blockDamage = 1 ∧
    (resolveHit { tgt with isShielding := false } (standardProjectile w side)).1.hp
      = tgt.hp - 2 ∧
    (resolveHit { tgt with isShielding := true } (standardProjectile w side)).1.hp = tgt.hp ∧
    (resolveHit { tgt with isShielding := false } (fireSpecial pose side)).1.hp
      = tgt.hp - 10 ∧
    (resolveHit { tgt with isShielding := true } (fireSpecial pose side)).1.hp
      = tgt.hp - 3 ∧
    (resolveHit { tgt with isShielding := false } (swordProjectile pose y side)).1.hp
      = tgt.hp - 3 ∧
    (resolveHit { tgt with isShielding := true } (swordProjectile pose y side)).1.hp
      = tgt.hp - 1 ∧
    (resolveHit { tgt with isShielding := true } (standardProjectile w side)).1.hp >
      (resolveHit { tgt with isShielding := false } (standardProjectile w side)).1.hp ∧
    (resolveHit { tgt with isShielding := true } (fireSpecial pose side)).1.hp >
      (resolveHit { tgt with isShielding := false } (fireSpecial pose side)).1.hp ∧
    (resolveHit { tgt with isShielding := true } (swordProjectile pose y side)).1.hp >
      (resolveHit { tgt with isShielding := false } (swordProjectile pose y side)).1.hp := by
  refine ⟨?_, ?_, ?_, ?_, ?_, ?_, ?_, ?_, ?_, ?_, ?_, ?_, ?_, ?_, ?_⟩ <;>
    norm_num [resolveHit, standardProjectile, fireSpecial, swordProjectile,
      DAMAGE_STANDARD, DAMAGE_SPECIAL, DAMAGE_SPECIAL_BLOCK, DAMAGE_SWORD,
      DAMAGE_SWORD_BLOCK]

/-- Claim C10: when the targeted player's hurtbox is `none`, no collision test
is performed — for either slot.  A left-owned in-bounds projectile facing a
hurtbox-less right player survives (merely moved), both players are unchanged
and no floating text is emitted, and across a whole simulator tick the
hurtbox-less right player's record (hp included) is left exactly as it was;
symmetrically, a right-owned in-bounds projectile facing a hurtbox-less left
player survives with no effect, and the hurtbox-less left player's record is
unchanged across the whole tick. -/
theorem c10_missing_hurtbox_no_collision (l r : PlayerState) (p : Projectile)
    (ps : List Projectile) (l2 r2 : PlayerState) (q : Projectile) (qs : List Projectile)
    (hbbR : r.boundingBox = none) (hoL : p.owner = Side.left)
    (hoobP : isOOB (moveProj p) = false)
    (hbbL : l2.boundingBox = none) (hoR : q.owner = Side.right)
    (hoobQ : isOOB (moveProj q) = false) :
    stepOne l r p = (some (moveProj p), l, r, none) ∧
    (updateProjectiles ps l r).2.2.1 = r ∧
    stepOne l2 r2 q = (some (moveProj q), l2, r2, none) ∧
    (updateProjectiles qs l2 r2).2.1 = l2 :=
  ⟨stepOne_target_missing l r p hbbR hoL hoobP,
    updateProjectiles_right_unchanged ps l r hbbR,
    stepOne_target_missing_left l2 r2 q hbbL hoR hoobQ,
    updateProjectiles_left_unchanged qs l2 r2 hbbL⟩

/-- Witness for C10: a left-owned projectile against a hurtbox-less right
player, and a right-owned projectile against a hurtbox-less left player, each
survive their tick and leave the targeted player untouched. -/
theorem c10_witness :
    stepOne basePlayer basePlayer inFlightProj
      = (some (moveProj inFlightProj), basePlayer, basePlayer, none) ∧
    (updateProjectiles [inFlightProj] basePlayer basePlayer).2.2.1 = basePlayer ∧
    stepOne basePlayer basePlayer inFlightProjR
      = (some (moveProj inFlightProjR), basePlayer, basePlayer, none) ∧
    (updateProjectiles [inFlightProjR] basePlayer basePlayer).2.1 = basePlayer :=
  c10_missing_hurtbox_no_collision basePlayer basePlayer inFlightProj [inFlightProj]
    basePlayer basePlayer inFlightProjR [inFlightProjR]
    (by norm_num [basePlayer]) (by norm_num [inFlightProj])
    (by norm_num [isOOB, moveProj, inFlightProj, CANVAS_WIDTH])
    (by norm_num [basePlayer]) (by norm_num [inFlightProjR])
    (by norm_num [isOOB, moveProj, inFlightProjR, CANVAS_WIDTH])

/-- Claim C9: the undetected-player path clears charging (at any
`chargeLevel`, including a full charge), resets `chargeLevel` to 0, clears
every other transient action flag and the hurtbox, and spawns no projectile:
a fully charged special is silently discarded on loss of detection. -/
theorem c9_undetected_discards_charge (s : PlayerState) :
    (undetectedTick s).1.isCharging = false ∧
    (undetectedTick s).1.chargeLevel = 0 ∧
    (undetectedTick s).1.isShielding = false ∧
    (undetectedTick s).1.hasSword = false ∧
    (undetectedTick s).1.detected = false ∧
    (undetectedTick s).1.boundingBox = none ∧
    (undetectedTick s).2 = [] := by
  simp [undetectedTick, resetPlayerAction]

/-- Claim C6: a pose frame whose landmark array holds only indices 0–14 lacks
the wrist index 15 that the classification pipeline dereferences with no
presence check (`hasRequiredLandmarks` is false and the indexed access is
`none`); the source nevertheless invokes the pipeline on any assigned body. -/
theorem c6_partial_frame_dereferenced :
    hasRequiredLandmarks (List.replicate 15 (⟨0, 0⟩ : Landmark)) = false ∧
    (List.replicate 15 (⟨0, 0⟩ : Landmark)).get? 15 = none := by
  constructor
  · simp [hasRequiredLandmarks, requiredLandmarkIndices]
  · simp [List.get?_eq_none]

end NewFight

namespace NewFight

/-- Claim C7 (amended): when a hand's punch evaluation passes the
action-exclusivity, cooldown and height-band gates, the stored baseline for
that hand is overwritten with the current shoulder-relative wrist position,
and the fire decision compares the current relative position against the
*previously stored* baseline — which is the position recorded by the most
recent evaluation that passed those gates, not necessarily the immediately
preceding processed tick. -/
theorem c7_amended_baseline (now : ℚ) (side : Side) (hand : Hand) (w sh hip : Landmark)
    (scaleSq : ℚ) (s : PlayerState)
    (hg : handGatesOk now s w sh hip = true) :
    (checkHand now side hand w sh hip scaleSq s).1.prevWrist hand = relPos w sh ∧
    (checkHand now side hand w sh hip scaleSq s).2 =
      (if handFireOk (s.prevWrist hand) (relPos w sh) w sh scaleSq then
        some (standardProjectile w side) else none) := by
  cases hand <;>
    (simp only [checkHand, PlayerState.setPrevWrist, PlayerState.prevWrist]
     rw [if_pos hg]
     split_ifs <;> simp)

/-- Witness for the amended C7 at a concrete gates-passing input. -/
theorem c7_amended_witness :
    (checkHand 1000 Side.left Hand.left bothPunchPose.leftWrist bothPunchPose.leftShoulder
        bothPunchPose.leftHip (punchScaleSq bothPunchPose) bothPunchState).1.prevWrist
        Hand.left
      = relPos bothPunchPose.leftWrist bothPunchPose.leftShoulder ∧
    (checkHand 1000 Side.left Hand.left bothPunchPose.leftWrist bothPunchPose.leftShoulder
        bothPunchPose.leftHip (punchScaleSq bothPunchPose) bothPunchState).2 =
      (if handFireOk (bothPunchState.prevWrist Hand.left)
          (relPos bothPunchPose.leftWrist bothPunchPose.leftShoulder)
          bothPunchPose.leftWrist bothPunchPose.leftShoulder (punchScaleSq bothPunchPose) then
        some (standardProjectile bothPunchPose.leftWrist Side.left) else none) :=
  c7_amended_baseline 1000 Side.left Hand.left bothPunchPose.leftWrist
    bothPunchPose.leftShoulder bothPunchPose.leftHip (punchScaleSq bothPunchPose)
    bothPunchState
    (by norm_num [handGatesOk, bothPunchState, bothPunchPose, PUNCH_COOLDOWN])

/-- Claim C7 counterexample: the left hand fires at t = 1000 ms
(`stalePose1`), so the t = 1100 ms evaluation is blocked by the cooldown and
leaves the stored baseline at tick-1's relative position — not tick-2's
(first two conjuncts).  At t = 1600 ms the wrist is exactly where it was at
t = 1100 ms (`stalePose2` twice, true one-frame velocity zero), yet a punch
fires because the speed is computed against the stale tick-1 baseline: the
backward difference is *not* always taken over consecutive processed ticks. -/
theorem c7_stale_baseline_counterexample :
    (detectPunch stalePose2 1100 Side.left
        (detectPunch stalePose1 1000 Side.left bothPunchState).1).1.prevWristLeft
      = relPos stalePose1.leftWrist stalePose1.leftShoulder ∧
    (detectPunch stalePose2 1100 Side.left
        (detectPunch stalePose1 1000 Side.left bothPunchState).1).1.prevWristLeft
      ≠ relPos stalePose2.leftWrist stalePose2.leftShoulder ∧
    (detectPunch stalePose2 1600 Side.left
        (detectPunch stalePose2 1100 Side.left
          (detectPunch stalePose1 1000 Side.left bothPunchState).1).1).2 ≠ [] := by
  norm_num [detectPunch, checkHand, handGatesOk, handFireOk, punchScaleSq, punchSpeedSq,
    relPos, distSq, PlayerState.prevWrist, PlayerState.setPrevWrist, bothPunchState,
    stalePose1, stalePose2, PUNCH_COOLDOWN, PUNCH_SPEED_THRESHOLD, EXTENSION_THRESHOLD]

end NewFight

namespace NewFight

lemma detectSpecial_range (pose : Pose) (now : ℚ) (side : Side) (s : PlayerState)
    (h0 : 0 ≤ s.chargeLevel) (h1 : s.chargeLevel ≤ 1)
    (hst : s.isCharging = true → s.chargeStartTime ≤ now) :
    0 ≤ (detectSpecial pose now side s).1.chargeLevel ∧
    (detectSpecial pose now side s).1.chargeLevel ≤ 1 := by
  simp only [detectSpecial]
  split_ifs with hh hc hf hg
  · constructor
    · refine le_min (by norm_num) ?_
      apply div_nonneg
      · have := hst hc
        linarith
      · norm_num [SPECIAL_CHARGE_TIME]
    · exact min_le_left _ _
  · constructor
    · refine le_min (by norm_num) ?_
      apply div_nonneg
      · simp
      · norm_num [SPECIAL_CHARGE_TIME]
    · exact min_le_left _ _
  · exact ⟨le_refl 0, by norm_num⟩
  · exact ⟨le_refl 0, by norm_num⟩
  · exact ⟨h0, h1⟩
  · exact ⟨h0, h1⟩

lemma detectSpecial_holding (pose : Pose) (now : ℚ) (side : Side) (s : PlayerState)
    (h : isHoldingPose pose s = true) :
    (detectSpecial pose now side s).1.isCharging = true ∧
    (detectSpecial pose now side s).1.chargeStartTime =
      (if s.isCharging = true then s.chargeStartTime else now) ∧
    (detectSpecial pose now side s).1.chargeLevel =
      min 1 ((now - (if s.isCharging = true then s.chargeStartTime else now)) /
        SPECIAL_CHARGE_TIME) := by
  simp only [detectSpecial, h, if_true]
  split_ifs with hc <;> simp [hc]

lemma processPlayer_chargeLevel_range (lms : List Landmark) (pose : Pose) (now : ℚ)
    (side : Side) (s : PlayerState)
    (h0 : 0 ≤ s.chargeLevel) (h1 : s.chargeLevel ≤ 1)
    (hst : s.isCharging = true → s.chargeStartTime ≤ now) :
    0 ≤ (processPlayer lms pose now side s).1.chargeLevel ∧
    (processPlayer lms pose now side s).1.chargeLevel ≤ 1 := by
  simp only [processPlayer]
  set s0 : PlayerState := { s with detected := true, boundingBox := some (computeBBox lms) }
    with hs0
  set s1 := detectShield pose s0 with hs1
  set sp := detectSpecial pose now side s1 with hsp
  set sw := detectSword pose now side sp.1 with hsw
  have hshield := detectShield_charge_fields pose s0
  rw [← hs1] at hshield
  obtain ⟨f1, f2, f3, f4⟩ := hshield
  have h0x : 0 ≤ s1.chargeLevel := by rw [f2]; exact h0
  have h1x : s1.chargeLevel ≤ 1 := by rw [f2]; exact h1
  have hstx : s1.isCharging = true → s1.chargeStartTime ≤ now := by
    intro hcc
    rw [f3]
    exact hst (by rw [f1] at hcc; exact hcc)
  have hr := detectSpecial_range pose now side s1 h0x h1x hstx
  rw [← hsp] at hr
  have w := detectSword_preserv pose now side sp.1
  rw [← hsw] at w
  obtain ⟨w1, w2, w3, w4⟩ := w
  by_cases hpunch : (!sw.1.isShielding && !sw.1.isCharging && !sw.1.hasSword) = true
  · rw [if_pos hpunch]
    obtain ⟨p1, p2, p3, p4, p5⟩ := detectPunch_preserv pose now side sw.1
    constructor
    · show 0 ≤ (detectPunch pose now side sw.1).1.chargeLevel
      rw [p4, w3]; exact hr.1
    · show (detectPunch pose now side sw.1).1.chargeLevel ≤ 1
      rw [p4, w3]; exact hr.2
  · rw [if_neg hpunch]
    constructor
    · show 0 ≤ sw.1.chargeLevel
      rw [w3]; exact hr.1
    · show sw.1.chargeLevel ≤ 1
      rw [w3]; exact hr.2

/-- Claim C8: across a full detected-player tick, `chargeLevel` stays within
[0, 1] (given the wall clock never runs backwards past an active charge's
start time); on two consecutive ticks that both hold the charge pose with
non-decreasing clock, `chargeLevel` is non-decreasing; and the
undetected-player reset also lands inside the range, at 0. -/
theorem c8_chargeLevel_bounded_monotone (lms : List Landmark) (pose : Pose) (now : ℚ)
    (side : Side) (s : PlayerState) (p1 p2 : Pose) (n1 n2 : ℚ) (side2 : Side)
    (t u : PlayerState)
    (h0 : 0 ≤ s.chargeLevel) (h1 : s.chargeLevel ≤ 1)
    (hst : s.isCharging = true → s.chargeStartTime ≤ now)
    (hn : n1 ≤ n2)
    (hold1 : isHoldingPose p1 t = true)
    (hold2 : isHoldingPose p2 (detectSpecial p1 n1 side2 t).1 = true) :
    (0 ≤ (processPlayer lms pose now side s).1.chargeLevel ∧
      (processPlayer lms pose now side s).1.chargeLevel ≤ 1) ∧
    (detectSpecial p1 n1 side2 t).1.chargeLevel ≤
      (detectSpecial p2 n2 side2 (detectSpecial p1 n1 side2 t).1).1.chargeLevel ∧
    (undetectedTick u).1.chargeLevel = 0 := by
  refine ⟨processPlayer_chargeLevel_range lms pose now side s h0 h1 hst, ?_,
    by simp [undetectedTick, resetPlayerAction]⟩
  obtain ⟨j1, j2, j3⟩ := detectSpecial_holding p1 n1 side2 t hold1
  obtain ⟨k1, k2, k3⟩ := detectSpecial_holding p2 n2 side2 (detectSpecial p1 n1 side2 t).1 hold2
  rw [j3, k3, if_pos j1, j2]
  apply min_le_min le_rfl
  have h1500 : (0:ℚ) < SPECIAL_CHARGE_TIME := by norm_num [SPECIAL_CHARGE_TIME]
  exact (div_le_div_iff_of_pos_right h1500).mpr (by linarith)

/-- Witness for C8: a player starting to hold the pose at t = 0 has a charge
level at t = 100 at least its (zero) starting level. -/
theorem c8_witness :
    (detectSpecial heldPose 0 Side.left basePlayer).1.chargeLevel ≤
      (detectSpecial heldPose 100 Side.left
        (detectSpecial heldPose 0 Side.left basePlayer).1).1.chargeLevel :=
  (c8_chargeLevel_bounded_monotone [] releasedPose 0 Side.left basePlayer heldPose heldPose
    0 100 Side.left basePlayer chargedState
    (by norm_num [basePlayer]) (by norm_num [basePlayer])
    (by intro h; norm_num [basePlayer] at h)
    (by norm_num)
    (by norm_num [isHoldingPose, specialPoseRaw, heldPose, basePlayer])
    (by norm_num [isHoldingPose, specialPoseRaw, heldPose, basePlayer, detectSpecial])).2.1

end NewFight
